import Mathlib

/-!
Verification of the email-trigger-app frontend against its specification.

The definitions below are a shallow embedding of the repository's frontend
source (`src/frontend/src`): the `emailAPI` service object of
`services/api.js`, the `effectiveUserId` reconciliation found in
`DashboardLayout`, `TriggersPage` and `SettingsPage`, the axios response
interceptor, the `truncateText` helper and subject fallback of `EmailList`,
the trigger/action option lists and `needsCondition` of the trigger form,
`toggleTrigger` of `TriggerManager`, and the route table of `App.jsx`.
The backend trigger-evaluation engine is not part of the sources; where a
claim depends on it, the definition is modelled from the specification and
marked as such.
-/

namespace EmailTriggerApp

/-- JavaScript `a || b` on a possibly-absent string: `null`/`undefined`
(modelled as `none`) and the empty string are falsy and fall through to
the default. -/
def jsOrStr (a : Option String) (b : String) : String :=
  match a with
  | some s => if s = "" then b else s
  | none => b

/-! ## `services/api.js`: the `emailAPI` object

The member names defined on the exported `emailAPI` object, in source
order. Accessing any other property yields `undefined`, and calling it
throws a `TypeError` before any HTTP request is issued. -/

/-- The members of the `emailAPI` object in `services/api.js`. -/
def emailAPIMembers : List String :=
  ["getAuthUrl", "handleCallback", "getSupportedProviders",
   "getUserEmails", "getTriggers", "createTrigger", "updateTrigger",
   "deleteTrigger", "testEmailNotification", "startEmailMonitoring",
   "debugOAuthCredentials", "testOAuth", "healthCheck"]

/-- Outcome of evaluating `emailAPI.<member>(…)` in the frontend: either
the member exists and an HTTP request towards the backend is issued, or
the member is `undefined` and the call throws before any request. -/
inductive JsCall where
  | backendRequest (member : String)
  | typeErrorBeforeRequest
deriving DecidableEq, Repr

/-- Evaluating `emailAPI.<member>(…)`: a request reaches the backend
exactly when `member` is defined on the `emailAPI` object. -/
def callEmailAPI (member : String) : JsCall :=
  if member ∈ emailAPIMembers then
    JsCall.backendRequest member
  else
    JsCall.typeErrorBeforeRequest

/-- A user-visible toast notification (`react-hot-toast`). -/
inductive ToastMsg where
  | success (s : String)
  | error (s : String)
deriving DecidableEq, Repr

/-! ## The `effectiveUserId` reconciliation

`DashboardLayout` (`components/Breadcrumb.jsx`), `TriggersPage`
(`pages/EmailsPage.jsx`) and `SettingsPage` (`pages/SettingsPage.jsx`) all
contain the same `useEffect`: read `localStorage.getItem('emailTriggerUser')`,
parse it, and when the stored `user_id` differs from the server-issued
`user.user_id`, replace the effective user id with the stored one. -/

/-- The parsed `emailTriggerUser` localStorage entry (only the `user_id`
field is consulted by the reconciliation). -/
structure StoredUser where
  user_id : Nat
deriving DecidableEq, Repr

/-- The `effectiveUserId` state after the reconciliation `useEffect` has
run: `saved = none` models an absent or unparseable localStorage entry
(the `catch` keeps the server id); a parsed entry whose `user_id` differs
from the server's replaces it. -/
def effectiveUserId (serverUserId : Nat) (saved : Option StoredUser) : Nat :=
  match saved with
  | some u => if u.user_id ≠ serverUserId then u.user_id else serverUserId
  | none => serverUserId

/-- The userId `TriggersPage` passes to `TriggerManager` (and hence to all
trigger API calls): the reconciled `effectiveUserId`. -/
def triggersPageUserId (serverUserId : Nat) (saved : Option StoredUser) : Nat :=
  effectiveUserId serverUserId saved

/-- The userId `SettingsPage` passes to its permission test: the
reconciled `effectiveUserId`. -/
def settingsPageUserId (serverUserId : Nat) (saved : Option StoredUser) : Nat :=
  effectiveUserId serverUserId saved

/-- The userId `EmailsPage.fetchEmails` passes to
`emailAPI.getUserEmails`: the outlet-context `user.user_id` directly; the
localStorage entry is not consulted. -/
def emailsPageFetchUserId (serverUserId : Nat) (_saved : Option StoredUser) : Nat :=
  serverUserId

/-! ## `SettingsPage.testEmailPermissions` and
`EmailDashboard.handleTestTrigger` -/

/-- The response shape `testEmailPermissions` expects from the backend:
an optional `error` field, and `user_test.success` / `messages_test.success`
flags. -/
structure PermTestResponse where
  err : Option String
  userTestSuccess : Bool
  messagesTestSuccess : Bool
deriving DecidableEq, Repr

/-- The toast produced from a received permission-test response
(the `else` branch of `SettingsPage.testEmailPermissions`). -/
def permResultToast (d : PermTestResponse) : ToastMsg :=
  match d.err with
  | some e => ToastMsg.error ("Permission test failed: " ++ e)
  | none =>
    if d.userTestSuccess && d.messagesTestSuccess then
      ToastMsg.success "✅ Email permissions working! You can read emails."
    else if d.userTestSuccess && !d.messagesTestSuccess then
      ToastMsg.error "❌ Can access profile but cannot read emails. Check permissions."
    else
      ToastMsg.error "❌ Cannot access Microsoft Graph API. Token may be invalid."

/-- The final toast of one invocation of
`SettingsPage.testEmailPermissions`: it calls
`emailAPI.testEmailPermissions(effectiveUserId)`; if that throws, the
`catch` shows `Failed to test permissions`; otherwise the response is
reported via `permResultToast`. The would-be backend response is a
parameter. -/
def settingsTestEmailPermissions (response : PermTestResponse) : ToastMsg :=
  match callEmailAPI "testEmailPermissions" with
  | JsCall.typeErrorBeforeRequest => ToastMsg.error "Failed to test permissions"
  | JsCall.backendRequest _ => permResultToast response

/-- The toast of one invocation of `EmailDashboard.handleTestTrigger`: it
calls `emailAPI.testTrigger(effectiveUserId)`; on success it reports
completion, and the `catch` shows `Failed to test triggers`. -/
def handleTestTrigger : ToastMsg :=
  match callEmailAPI "testTrigger" with
  | JsCall.typeErrorBeforeRequest => ToastMsg.error "Failed to test triggers"
  | JsCall.backendRequest _ =>
      ToastMsg.success "Trigger test completed! Check console for details."

/-! ## The axios response interceptor (`services/api.js` lines 13–20) -/

/-- A failed axios request as seen by the response interceptor:
`error.response?.data?.detail` and `error.message`. -/
structure AxiosError where
  responseDetail : Option String
  message : Option String
deriving DecidableEq, Repr

/-- The message the interceptor toasts:
`error.response?.data?.detail || error.message || 'An error occurred'`. -/
def interceptorMessage (e : AxiosError) : String :=
  jsOrStr e.responseDetail (jsOrStr e.message "An error occurred")

/-- The user-visible toasts the interceptor produces for one failed
request: exactly one error toast, on every failure. -/
def interceptorToasts (e : AxiosError) : List ToastMsg :=
  [ToastMsg.error (interceptorMessage e)]

/-! ## `EmailList` rendering helpers (`components/EmailList.jsx`) -/

/-- `truncateText(text, length = 100)`. An absent (`null`/`undefined`,
modelled `none`) or empty `text` returns `''`. Text containing both `<`
and `>` is first run through the browser's DOM text extraction (a
`textContent` read, with a regex fallback in the `catch`); that
environment-provided extraction is the parameter `extractText`. Finally
text longer than `len` is cut to `len` characters with `...` appended. -/
def truncateText (extractText : String → String)
    (text : Option String) (len : Nat := 100) : String :=
  match text with
  | none => ""
  | some t =>
    if t = "" then ""
    else
      let t2 := if t.data.contains '<' && t.data.contains '>' then extractText t else t
      if t2.length > len then (t2.take len) ++ "..." else t2

/-- The subject line rendered for a message:
`email.subject || 'No Subject'`. -/
def displaySubject (subject : Option String) : String :=
  jsOrStr subject "No Subject"

/-- The body preview rendered for a message: `truncateText(email.body)`
with the default length. -/
def displayBodyPreview (extractText : String → String)
    (body : Option String) : String :=
  truncateText extractText body

/-! ## `TriggerManager` and `TriggerForm`
(`components/Breadcrumb.jsx`, the `TriggerManager` source) -/

/-- An entry of the `triggerTypes` / `actionTypes` select lists:
`{ value, label }`. -/
structure SelectOpt where
  value : String
  label : String
deriving DecidableEq, Repr

/-- The `triggerTypes` list of `TriggerManager`, in source order. -/
def triggerTypes : List SelectOpt :=
  [⟨"sender_contains", "Sender contains"⟩,
   ⟨"subject_contains", "Subject contains"⟩,
   ⟨"body_contains", "Body contains"⟩,
   ⟨"sender_exact", "Exact sender"⟩,
   ⟨"subject_regex", "Subject regex"⟩,
   ⟨"attachment_exists", "Has attachments"⟩,
   ⟨"time_range", "Time range"⟩]

/-- The `actionTypes` list of `TriggerManager`, in source order. -/
def actionTypes : List SelectOpt :=
  [⟨"log_message", "Log message"⟩,
   ⟨"mark_as_read", "Mark as read"⟩,
   ⟨"forward_email", "Forward email"⟩,
   ⟨"send_notification", "Send notification"⟩,
   ⟨"webhook_call", "Call webhook"⟩,
   ⟨"custom_script", "Run script"⟩]

/-- The spec's closed enum of trigger types (§3/§4.4), written from the
spec's words for comparison with the UI's offering. -/
def specTriggerTypeEnum : List String :=
  ["sender_contains", "subject_contains", "body_contains", "sender_exact",
   "subject_regex", "attachment_exists", "time_range"]

/-- The spec's closed enum of actions (§4.5), written from the spec's
words for comparison with the UI's offering. -/
def specActionEnum : List String :=
  ["log_message", "mark_as_read", "forward_email", "send_notification",
   "webhook_call", "custom_script"]

/-- `TriggerForm`'s `needsCondition`:
`!['attachment_exists'].includes(formData.triggerType)`. The condition
input is rendered exactly when this is `true`. -/
def needsCondition (triggerType : String) : Bool :=
  !(["attachment_exists"].contains triggerType)

/-- A trigger as handled by `TriggerManager` (the fields the form and
`toggleTrigger` manipulate). -/
structure Trigger where
  id : Nat
  name : String
  description : String
  triggerType : String
  condition : String
  action : String
  isActive : Bool
deriving DecidableEq, Repr

/-- `toggleTrigger(triggerId)`: find the trigger in the fetched list and
submit it to `handleUpdateTrigger` with `isActive` negated; `none` models
the `if (trigger)` guard failing, where nothing is submitted. -/
def toggleTriggerPayload (triggers : List Trigger) (triggerId : Nat) :
    Option Trigger :=
  match triggers.find? (fun t => t.id == triggerId) with
  | some t => some { t with isActive := !t.isActive }
  | none => none

/-! ## The route table of `App.jsx` (`AppContent`) -/

/-- What the router renders: the login page, a `<Navigate>` redirect, or
the dashboard layout with one of its child pages (`none` = the index
`DashboardHome`). -/
inductive Rendered where
  | loginPage
  | redirect (target : String)
  | dashboardLayout (child : Option String)
deriving DecidableEq, Repr

/-- The nested dashboard routes: `/dashboard` (index), and its `emails`,
`triggers`, `settings` children. -/
def dashboardChild (path : String) : Option (Option String) :=
  if path = "/dashboard" then some none
  else if path = "/dashboard/emails" then some (some "emails")
  else if path = "/dashboard/triggers" then some (some "triggers")
  else if path = "/dashboard/settings" then some (some "settings")
  else none

/-- The `Routes` element of `AppContent`: `/login` renders the login page
or redirects to `/dashboard` by `user`; the `/dashboard` tree renders the
layout or redirects to `/login` by `user`; `/` and the `*` catch-all
redirect by `user`. -/
def renderRoutes (user : Option Nat) (path : String) : Rendered :=
  if path = "/login" then
    match user with
    | some _ => Rendered.redirect "/dashboard"
    | none => Rendered.loginPage
  else
    match dashboardChild path with
    | some child =>
      match user with
      | some _ => Rendered.dashboardLayout child
      | none => Rendered.redirect "/login"
    | none =>
      match user with
      | some _ => Rendered.redirect "/dashboard"
      | none => Rendered.redirect "/login"

/-! ## The `time_range` match semantics -/

/-- Split a character list at every occurrence of `c` (the semantics of
`"…".split(c)` on the condition string). -/
def splitOnChar (c : Char) : List Char → List (List Char)
  | [] => [[]]
  | x :: xs =>
    match splitOnChar c xs with
    | [] => if x = c then [[], []] else [[x]]
    | h :: t => if x = c then [] :: h :: t else (x :: h) :: t

/-- The numeric value of a decimal digit character (code points 48–57). -/
def charDigit (c : Char) : Option Nat :=
  if 48 ≤ c.toNat && c.toNat ≤ 57 then some (c.toNat - 48) else none

/-- Read a non-empty all-digit character list as a decimal number. -/
def digitsToNat : List Char → Option Nat
  | [] => none
  | l =>
    l.foldl (fun acc c =>
      match acc, charDigit c with
      | some a, some d => some (a * 10 + d)
      | _, _ => none) (some 0)

/-- Parse one `"HH:MM"` endpoint into minutes-of-day. -/
def parseHM (s : List Char) : Option Nat :=
  match splitOnChar ':' s with
  | [h, m] =>
    match digitsToNat h, digitsToNat m with
    | some hh, some mm =>
      if hh < 24 && mm < 60 then some (hh * 60 + mm) else none
    | _, _ => none
  | _ => none

/-- Modelled from the spec: the Trigger Rule Engine's `time_range` match
(§4.4) — the backend engine is not among the repository sources under
`src/`. The `condition` is an `"HH:MM-HH:MM"` local-time window; the rule
matches if the message's `received_at` time-of-day (here in minutes since
midnight) falls within the window, with wrap-around across midnight
supported (e.g. `"22:00-06:00"`). -/
def timeRangeMatches (condition : String) (minutesOfDay : Nat) : Bool :=
  match splitOnChar '-' condition.data with
  | [a, b] =>
    match parseHM a, parseHM b with
    | some s, some e =>
      if s ≤ e then decide (s ≤ minutesOfDay ∧ minutesOfDay ≤ e)
      else decide (s ≤ minutesOfDay ∨ minutesOfDay ≤ e)
    | _, _ => false
  | _ => false

/-- A concrete trigger used to instantiate list-level statements. -/
def sampleTrigger : Trigger :=
  ⟨1, "Boss Emails", "log mail from the boss", "sender_exact",
   "boss@co.com", "log_message", true⟩

/-- In a list whose trigger ids are pairwise distinct, looking a trigger
up by its own id finds exactly that trigger. -/
theorem find_by_id_of_nodup (ts : List Trigger) (t : Trigger)
    (hnd : (ts.map Trigger.id).Nodup) (ht : t ∈ ts) :
    ts.find? (fun x => x.id == t.id) = some t := by
  induction ts with
  | nil => cases ht
  | cons h tl ih =>
    rw [List.map_cons, List.nodup_cons] at hnd
    rcases List.mem_cons.mp ht with rfl | htl
    · simp [List.find?]
    · have hne : (h.id == t.id) = false := by
        simp only [beq_eq_false_iff_ne, ne_eq]
        intro he
        exact hnd.1 (he ▸ List.mem_map_of_mem Trigger.id htl)
      rw [List.find?_cons_of_neg _ (by simp [hne]), ih hnd.2 htl]

/-! ## Claims -/

/-- C1 (counterexample): two renders that differ only in the localStorage
`emailTriggerUser` entry issue their trigger and settings API calls with
different userIds — with server-issued id 1 and a cached entry carrying
user_id 4, the triggers page and settings page use 4, not 1. -/
theorem C1_counterexample :
    triggersPageUserId 1 (some ⟨4⟩) ≠ triggersPageUserId 1 none ∧
    triggersPageUserId 1 (some ⟨4⟩) = 4 ∧
    settingsPageUserId 1 (some ⟨4⟩) = 4 ∧
    effectiveUserId 1 (some ⟨4⟩) = 4 := by
  decide

/-- C1 (amended): the emails page issues its email fetch with the
server-issued `user.user_id` regardless of localStorage; but the
dashboard layout, triggers page and settings page reconcile an
`effectiveUserId` that is replaced by the localStorage `emailTriggerUser`
user_id whenever that entry parses and differs from the server-issued id,
and only equals the server id when the entry is absent, unparseable, or
agrees. -/
theorem C1_amended_userId_resolution :
    (∀ sid s1 s2, emailsPageFetchUserId sid s1 = emailsPageFetchUserId sid s2) ∧
    (∀ sid, triggersPageUserId sid none = sid) ∧
    (∀ sid u, u.user_id ≠ sid → triggersPageUserId sid (some u) = u.user_id) ∧
    (∀ sid u, u.user_id ≠ sid → settingsPageUserId sid (some u) = u.user_id) ∧
    (∀ sid u, u.user_id = sid → effectiveUserId sid (some u) = sid) := by
  refine ⟨fun _ _ _ => rfl, fun _ => rfl, ?_, ?_, ?_⟩ <;>
    intro sid u h <;>
    simp [triggersPageUserId, settingsPageUserId, effectiveUserId, h]

/-- Witness for `C1_amended_userId_resolution` at concrete inputs. -/
theorem C1_amended_userId_resolution_witness :
    triggersPageUserId 1 (some ⟨4⟩) = 4 ∧
    settingsPageUserId 1 (some ⟨4⟩) = 4 ∧
    effectiveUserId 1 (some ⟨1⟩) = 1 :=
  ⟨C1_amended_userId_resolution.2.2.1 1 ⟨4⟩ (by decide),
   C1_amended_userId_resolution.2.2.2.1 1 ⟨4⟩ (by decide),
   C1_amended_userId_resolution.2.2.2.2 1 ⟨1⟩ rfl⟩

/-- C2: the `emailAPI` object defines no `testEmailPermissions` member,
so the settings page's Test Email Permissions action throws before any
request reaches the backend, and for every would-be backend response the
user sees the catch-branch diagnostic `Failed to test permissions` —
never the structured {profileOk, messagesOk} report the spec promises. -/
theorem C2_permission_probe_fails_before_backend :
    callEmailAPI "testEmailPermissions" = JsCall.typeErrorBeforeRequest ∧
    ∀ r, settingsTestEmailPermissions r =
      ToastMsg.error "Failed to test permissions" := by
  have h : callEmailAPI "testEmailPermissions" = JsCall.typeErrorBeforeRequest := by
    decide
  exact ⟨h, fun r => by simp [settingsTestEmailPermissions, h]⟩

/-- C3: the `emailAPI` object defines no `testTrigger` member, so the
dashboard's Test Triggers action throws before any request reaches the
backend and the user sees the catch-branch toast `Failed to test
triggers`, never the success report. -/
theorem C3_test_trigger_fails_before_backend :
    callEmailAPI "testTrigger" = JsCall.typeErrorBeforeRequest ∧
    handleTestTrigger = ToastMsg.error "Failed to test triggers" := by
  decide

/-- C4 (counterexample): a single failed API request does produce a
user-visible error message — the axios response interceptor toasts on
every rejected response, e.g. one network failure yields the visible
error toast `Network Error`. -/
theorem C4_counterexample :
    interceptorToasts ⟨none, some "Network Error"⟩ =
      [ToastMsg.error "Network Error"] ∧
    (interceptorToasts ⟨none, some "Network Error"⟩).length ≠ 0 := by
  decide

/-- C4 (amended): in the frontend, every failed API request produces
exactly one user-visible error toast, whose text is the server's
`detail` when present and non-empty, else `error.message` when present
and non-empty, else `An error occurred`; absorption of transient errors
belongs to the backend scheduler, not to this code. -/
theorem C4_amended_every_failure_toasts :
    (∀ e : AxiosError, ∃ msg, interceptorToasts e = [ToastMsg.error msg]) ∧
    (∀ d m, d ≠ "" → interceptorMessage ⟨some d, m⟩ = d) ∧
    (∀ m, m ≠ "" → interceptorMessage ⟨none, some m⟩ = m) ∧
    interceptorMessage ⟨none, none⟩ = "An error occurred" := by
  refine ⟨fun e => ⟨interceptorMessage e, rfl⟩, ?_, ?_, rfl⟩
  · intro d m h
    simp [interceptorMessage, jsOrStr, h]
  · intro m h
    simp [interceptorMessage, jsOrStr, h]

/-- Witness for `C4_amended_every_failure_toasts` at concrete inputs. -/
theorem C4_amended_every_failure_toasts_witness :
    (∃ msg, interceptorToasts ⟨none, some "Network Error"⟩ =
      [ToastMsg.error msg]) ∧
    interceptorMessage ⟨some "Not found", some "Request failed"⟩ = "Not found" ∧
    interceptorMessage ⟨none, some "Network Error"⟩ = "Network Error" :=
  ⟨C4_amended_every_failure_toasts.1 ⟨none, some "Network Error"⟩,
   C4_amended_every_failure_toasts.2.1 "Not found" (some "Request failed")
     (by decide),
   C4_amended_every_failure_toasts.2.2.1 "Network Error" (by decide)⟩

/-- C5: rendering a message with an absent subject or body never
crashes: the subject falls back to `No Subject`, the body preview of an
absent body is the empty string, `truncateText` returns `''` for every
absent input, and for present non-HTML text it returns the defined
truncation (cut to the length bound with `...` appended, else the text
itself). -/
theorem C5_absent_fields_render_safely :
    (∀ f len, truncateText f none len = "") ∧
    (∀ f len, truncateText f (some "") len = "") ∧
    (∀ f, displayBodyPreview f none = "") ∧
    displaySubject none = "No Subject" ∧
    displaySubject (some "") = "No Subject" ∧
    (∀ f s len, s ≠ "" → (s.data.contains '<' && s.data.contains '>') = false →
      truncateText f (some s) len =
        if s.length > len then s.take len ++ "..." else s) := by
  refine ⟨fun _ _ => rfl, fun f len => by simp [truncateText],
    fun f => rfl, rfl, rfl, ?_⟩
  intro f s len hne hhtml
  have h2 : ¬('<' ∈ s.data ∧ '>' ∈ s.data) := by
    rintro ⟨ha, hb⟩
    simp [ha, hb] at hhtml
  simp [truncateText, hne, h2]

/-- Witness for `C5_absent_fields_render_safely` at concrete inputs. -/
theorem C5_absent_fields_render_safely_witness :
    truncateText (fun t => t) (some "hello") 3 =
      (if ("hello".length > 3) then "hello".take 3 ++ "..." else "hello") ∧
    truncateText (fun t => t) (some "") 7 = "" :=
  ⟨C5_absent_fields_render_safely.2.2.2.2.2 (fun t => t) "hello" 3
     (by decide) (by decide),
   C5_absent_fields_render_safely.2.1 (fun t => t) 7⟩

/-- C6: the trigger management surface offers exactly the spec's closed
enums: the seven trigger types and six actions, with no extra and no
missing members, in the spec's order. -/
theorem C6_trigger_and_action_enums_exact :
    triggerTypes.map SelectOpt.value = specTriggerTypeEnum ∧
    actionTypes.map SelectOpt.value = specActionEnum := by
  decide

/-- C7: the trigger form omits the condition input exactly when the
selected trigger type is `attachment_exists` (whose condition the spec
ignores), and shows it for every other trigger type. -/
theorem C7_condition_input_iff_not_attachment_exists :
    ∀ t, needsCondition t = false ↔ t = "attachment_exists" := by
  intro t
  simp [needsCondition, List.contains]

/-- Witness for `C7_condition_input_iff_not_attachment_exists` at a
concrete input. -/
theorem C7_condition_input_iff_not_attachment_exists_witness :
    needsCondition "attachment_exists" = false :=
  (C7_condition_input_iff_not_attachment_exists "attachment_exists").mpr rfl

/-- C8: the `time_range` rule with condition `"22:00-06:00"` matches a
message received at local time 23:30 (minute 1410) and at 05:00
(minute 300), and does not match one received at 12:00 (minute 720):
wrap-around across midnight is supported. -/
theorem C8_time_range_wraparound :
    timeRangeMatches "22:00-06:00" 1410 = true ∧
    timeRangeMatches "22:00-06:00" 300 = true ∧
    timeRangeMatches "22:00-06:00" 720 = false := by
  decide

/-- C9: for every trigger `t` in a fetched list whose ids are pairwise
distinct, `toggleTrigger(t.id)` submits exactly `t` with `isActive`
negated — every other field of the submitted update equals `t`'s. -/
theorem C9_toggle_negates_only_isActive (ts : List Trigger) (t : Trigger)
    (hnd : (ts.map Trigger.id).Nodup) (ht : t ∈ ts) :
    toggleTriggerPayload ts t.id = some { t with isActive := !t.isActive } := by
  unfold toggleTriggerPayload
  rw [find_by_id_of_nodup ts t hnd ht]

/-- Witness for `C9_toggle_negates_only_isActive` at a concrete list. -/
theorem C9_toggle_negates_only_isActive_witness :
    toggleTriggerPayload [sampleTrigger] sampleTrigger.id =
      some { sampleTrigger with isActive := !sampleTrigger.isActive } :=
  C9_toggle_negates_only_isActive [sampleTrigger] sampleTrigger
    (by decide) (by decide)

/-- C10: with a null user the router renders the login page or a
redirect to `/login` for every path — never the dashboard layout or any
child page — and with a non-null user the `/login` path redirects to
`/dashboard`. -/
theorem C10_routes_guard_by_auth :
    (∀ path, renderRoutes none path = Rendered.loginPage ∨
      renderRoutes none path = Rendered.redirect "/login") ∧
    (∀ path child, renderRoutes none path ≠ Rendered.dashboardLayout child) ∧
    (∀ uid, renderRoutes (some uid) "/login" = Rendered.redirect "/dashboard") := by
  have h1 : ∀ path, renderRoutes none path = Rendered.loginPage ∨
      renderRoutes none path = Rendered.redirect "/login" := by
    intro path
    unfold renderRoutes
    split
    · left; rfl
    · cases hdc : dashboardChild path <;> simp [hdc]
  refine ⟨h1, ?_, ?_⟩
  · intro path child hcontra
    rcases h1 path with he | he <;> rw [he] at hcontra <;> cases hcontra
  · intro uid
    simp [renderRoutes]

end EmailTriggerApp
